import Mathlib

/-!
Verification of the Looking Glass management module
(`looking_glass_tools/looking_glass_management.py`).

The development shallowly embeds the parts of the module the claims touch:

* the quilt codec (`LookingGlassQuilt`): the static format catalog, the
  constructor, the `load` decoding path, `set_views`, and the private
  `__from_views_to_quilt_numpy` encoder;
* the HoloPlay service client (`HoloPlayService.get_devices` and
  `__calculate_derived`);
* the service registry (`ServiceManager.remove` / `reset_active` /
  `get_active`);
* the device registry (`DeviceManager.add_device`, `remove_device`,
  `refresh` and the `BaseDeviceType` constructor).

Modelling conventions:

* numpy pixel tensors are modelled as row-major flat index functions
  `Nat → Nat` together with explicit shape arithmetic; `reshape` is a
  total-size check that leaves the flat data unchanged, and
  `swapaxes(1, 2)` is the flat-index permutation `swapIdx`;
* Python `float` arithmetic is modelled exactly over `ℚ`; the
  transcendental functions `math.sin` and `math.atan` are abstracted as
  function parameters, since every claim about the calibration deriver is
  structural and independent of their values;
* Python exceptions are modelled with `Except PyErr`; an operation that
  cannot raise on the modelled path is left pure;
* the class-level mutable state of the Python module (the shared
  `__metadata` dict of `BaseLightfieldImageFormat`, the `ServiceManager`
  and `DeviceManager` class attributes) is modelled as explicit state
  records threaded through the operations.
-/

/-- The Python exceptions that the modelled code paths can raise. -/
inductive PyErr where
  | keyError
  | valueError
  | typeError
  | zeroDivisionError
deriving DecidableEq

/-! ### Quilt formats and metadata -/

/-- One entry of the static quilt format catalog
(`LookingGlassQuilt.formats`). -/
structure QuiltFormat where
  description : String
  quilt_width : Nat
  quilt_height : Nat
  view_width : Nat
  view_height : Nat
  columns : Nat
  rows : Nat
deriving DecidableEq

/-- Catalog entry 1: "2k Quilt, 32 Views". -/
def qfmt1 : QuiltFormat := ⟨"2k Quilt, 32 Views", 2048, 2048, 512, 256, 4, 8⟩

/-- Catalog entry 2: "4k Quilt, 45 Views". -/
def qfmt2 : QuiltFormat := ⟨"4k Quilt, 45 Views", 4096, 4096, 819, 455, 5, 9⟩

/-- Catalog entry 3: "8k Quilt, 45 Views". -/
def qfmt3 : QuiltFormat := ⟨"8k Quilt, 45 Views", 8192, 8192, 1638, 910, 5, 9⟩

/-- Catalog entry 4: "Portrait, 48 Views". -/
def qfmt4 : QuiltFormat := ⟨"Portrait, 48 Views", 3360, 3360, 420, 560, 8, 6⟩

/-- Catalog entry 5: "Portrait, 91 Views". -/
def qfmt5 : QuiltFormat := ⟨"Portrait, 91 Views", 4095, 4225, 585, 325, 7, 13⟩

/-- The format dictionary `LookingGlassQuilt.formats.__dict` in its
insertion order (Python dicts preserve insertion order, so
`formats.get().values()` iterates in this order). -/
def formats_dict : List (Nat × QuiltFormat) :=
  [(1, qfmt1), (2, qfmt2), (3, qfmt3), (4, qfmt4), (5, qfmt5)]

/-- `LookingGlassQuilt.formats.get(id)` for a specific id. -/
def formats_get (id : Nat) : Option QuiltFormat :=
  formats_dict.lookup id

/-- The catalog values in iteration order, as scanned by
`LookingGlassQuilt.load`. -/
def formats_values : List QuiltFormat :=
  formats_dict.map Prod.snd

/-- The quilt metadata fields of a `LookingGlassQuilt`
(`self.metadata['quilt_width']`, ..., `self.metadata['count']`). -/
structure Metadata where
  quilt_width : Nat
  quilt_height : Nat
  view_width : Nat
  view_height : Nat
  rows : Nat
  columns : Nat
  count : Nat
deriving DecidableEq

/-- The metadata stored by `LookingGlassQuilt.__init__` for a valid
catalog id: the format's fields plus `count = rows * columns`. -/
def metadataOfFormat (qf : QuiltFormat) : Metadata :=
  ⟨qf.quilt_width, qf.quilt_height, qf.view_width, qf.view_height,
   qf.rows, qf.columns, qf.rows * qf.columns⟩

/-- The all-zero metadata stored by `LookingGlassQuilt.__init__` when no
format id is passed. -/
def zeroMetadata : Metadata := ⟨0, 0, 0, 0, 0, 0, 0⟩

/-! ### The quilt tensor transform

A numpy array of shape `(a, b, c, d, e)` is modelled as its row-major
flat contents `Nat → Nat`.  `reshape` only checks that the total number
of elements is unchanged and reinterprets the same flat contents, so it
is a guard plus the identity on the flat function.  `swapaxes(1, 2)`
permutes the flat indices: `swapIdx b c d e` maps a flat index of the
swapped array (shape `(a, c, b, d, e)`) to the corresponding flat index
of the original array (shape `(a, b, c, d, e)`). -/

/-- Flat-index map of `numpy.swapaxes(1, 2)` for an array of shape
`(a, b, c, d, e)`: given a row-major index `n` into the swapped array of
shape `(a, c, b, d, e)`, return the row-major index of the same element
in the original array.  The leading axis extent `a` plays no role. -/
def swapIdx (b c d e n : Nat) : Nat :=
  n / (c * (b * (d * e))) * (b * (c * (d * e))) +
  (n % (c * (b * (d * e))) % (b * (d * e)) / (d * e) * (c * (d * e)) +
   (n % (c * (b * (d * e))) / (b * (d * e)) * (d * e) +
    n % (c * (b * (d * e))) % (b * (d * e)) % (d * e)))

/-- `LookingGlassQuilt.__from_views_to_quilt_numpy`: the views (a uniform
stack of `nviews` arrays of shape `(view_height, view_width, ch)`, given
as the flat contents `f` of the stacked array) are reshaped to
`(rows, columns, view_height, view_width, ch)`, the column and view-row
axes are swapped, and the result is reshaped to
`(quilt_height, quilt_width, ch)`.  Each numpy `reshape` requires the
total element count to be preserved and otherwise raises, which is
modelled by returning `none`. -/
def from_views_to_quilt_numpy (m : Metadata) (ch nviews : Nat) (f : Nat → Nat) :
    Option (Nat → Nat) :=
  if nviews * (m.view_height * (m.view_width * ch)) =
      m.rows * (m.columns * (m.view_height * (m.view_width * ch))) then
    if m.rows * (m.columns * (m.view_height * (m.view_width * ch))) =
        m.quilt_height * (m.quilt_width * ch) then
      some (fun n => f (swapIdx m.columns m.view_height m.view_width ch n))
    else none
  else none

/-- The format-matching test of `LookingGlassQuilt.load`: the code writes
`quilt_image.width in range(qf['quilt_width'] - 1, qf['quilt_width'] + 1)`
(and the same for the height).  Python's `range(a, b)` excludes `b`, so
this accepts exactly the two values `quilt_width - 1` and `quilt_width`
per axis. -/
def formatMatches (qf : QuiltFormat) (w h : Nat) : Bool :=
  (qf.quilt_width - 1 ≤ w && w < qf.quilt_width + 1) &&
  (qf.quilt_height - 1 ≤ h && h < qf.quilt_height + 1)

/-- The catalog scan of `LookingGlassQuilt.load`: every format is tested
in iteration order, each match overwrites the stored metadata and there
is no `break`, so when several formats match the last one wins; `none`
models the `TypeError` raised when no format matched. -/
def selectFormat (catalog : List QuiltFormat) (w h : Nat) : Option QuiltFormat :=
  catalog.foldl (fun acc qf => if formatMatches qf w h then some qf else acc) none

/-- The decoding steps of `LookingGlassQuilt.load` after a format was
selected (lines 317-332): the image (flat contents `img` of a row-major
`(imgH, imgW, ch)` array) is cropped to
`(rows * view_height, columns * view_width)` — numpy slicing truncates,
hence the `min` — then reshaped to
`(rows, view_height, columns, view_width, ch)`, the two middle axes are
swapped, and the result is reshaped to
`(count, view_height, view_width, ch)`, the flat stack of views. -/
def quilt_to_views (m : Metadata) (ch imgH imgW : Nat) (img : Nat → Nat) :
    Option (Nat → Nat) :=
  let croppedH := min imgH (m.rows * m.view_height)
  let croppedW := min imgW (m.columns * m.view_width)
  let cropped : Nat → Nat := fun n =>
    img ((n / (croppedW * ch)) * (imgW * ch) + n % (croppedW * ch))
  if croppedH * (croppedW * ch) =
      m.rows * (m.view_height * (m.columns * (m.view_width * ch))) then
    if m.rows * (m.view_height * (m.columns * (m.view_width * ch))) =
        m.count * (m.view_height * (m.view_width * ch)) then
      some (fun n => cropped (swapIdx m.view_height m.columns m.view_width ch n))
    else none
  else none

/-! ### Quilt instances and the shared metadata

`BaseLightfieldImageFormat` declares `__metadata = {}` as a class
attribute.  The `metadata` property getter returns that dict, and
`LookingGlassQuilt.__init__` and `load` mutate it in place
(`self.metadata['quilt_width'] = ...`); the setter is never called.  So
all `LookingGlassQuilt` instances alias one shared metadata dict, which
is modelled by keeping a single `metadata` field in the class state next
to the list of per-instance attributes.  The remaining attributes
(`colormode`, `colorchannels`, `views`, `views_format`) are only ever
replaced through their property setters, which create per-instance
attributes, so they live in the per-instance record. -/

/-- Per-instance attributes of a `LookingGlassQuilt`.  A view is an
opaque pixel buffer, modelled as `Nat`; `views_format` holds the
`LightfieldImage.views_format` enum value when set. -/
structure QuiltInst where
  colormode : String
  colorchannels : Nat
  views : List Nat
  views_format : Option Nat
deriving DecidableEq

/-- The class-level state of the quilt classes: the single shared
metadata dict plus the list of constructed instances. -/
structure QuiltClassState where
  metadata : Metadata
  instances : List QuiltInst
deriving DecidableEq

/-- `LookingGlassQuilt.__init__(id)`.  `if not id:` is Python falsiness,
so both `None` and `0` select the empty-metadata branch; a valid catalog
id stores that format's fields (with `count = rows * columns`) into the
shared metadata dict; any other id raises a `TypeError`.  Either success
branch sets the instance's `colormode`/`colorchannels` and appends the
new instance. -/
def lgq_init (st : QuiltClassState) (id? : Option Nat) :
    Except PyErr QuiltClassState :=
  if id?.getD 0 = 0 then
    .ok { metadata := zeroMetadata,
          instances := st.instances ++ [⟨"RGBA", 4, [], none⟩] }
  else
    match formats_get (id?.getD 0) with
    | some qf =>
        .ok { metadata := metadataOfFormat qf,
              instances := st.instances ++ [⟨"RGBA", 4, [], none⟩] }
    | none => .error .typeError

/-- `LookingGlassQuilt.set_views(views, format)` as a transformer of the
instance it is called on: when `len(views)` equals the shared metadata's
`count` the views and their format are stored; otherwise a `ValueError`
carrying the actual and the expected count is raised and the instance is
left untouched. -/
def set_views (m : Metadata) (inst : QuiltInst) (views : List Nat)
    (fmt : Nat) : QuiltInst × Option (Nat × Nat) :=
  if views.length = m.count then
    ({ inst with views := views, views_format := some fmt }, none)
  else
    (inst, some (views.length, m.count))

/-! ### The calibration record and the calibration deriver

The calibration dict shipped inside a driver reply is modelled as a
record.  The numeric fields are exact rationals; `math.sin` and
`math.atan` are passed in as abstract functions `ℚ → ℚ` because every
claim about `__calculate_derived` is structural.  The keys that
`__calculate_derived` adds to the dict (`tilt`, `subp`, `ri`, `bi`,
`fringe`) are `Option` fields that are `none` while the key is absent;
`pitch` exists in the raw record and is overwritten in place.
`viewCone` and `serial` stand for the passthrough fields of the raw
record. -/

/-- A calibration record (the flattened `device['calibration']` dict). -/
structure Calib where
  DPI : ℚ
  screenW : ℚ
  screenH : ℚ
  slope : ℚ
  pitch : ℚ
  flipSubp : Bool
  viewCone : ℚ
  serial : String
  tilt : Option ℚ
  subp : Option ℚ
  ri : Option Nat
  bi : Option Nat
  fringe : Option ℚ
deriving DecidableEq

/-- `HoloPlayService.__calculate_derived(configuration)`, with exact
rational arithmetic and `sin`/`atan` abstracted.  The statements are
executed in source order: `pitch` is overwritten first and `subp` then
reads the freshly derived `pitch`. -/
def calculate_derived (sin atan : ℚ → ℚ) (c : Calib) : Calib :=
  let tilt := c.screenH / (c.screenW * c.slope)
  let pitch2 := -c.screenW / c.DPI * c.pitch * sin (atan |c.slope|)
  let subp := pitch2 / (3 * c.screenW)
  let rb : Nat × Nat := if c.flipSubp then (2, 0) else (0, 2)
  { c with tilt := some tilt, pitch := pitch2, subp := some subp,
           ri := some rb.1, bi := some rb.2, fringe := some 0 }

/-- `__calculate_derived` with Python's division semantics made explicit:
each of the three divisions raises `ZeroDivisionError` when its divisor
is zero (`float / 0.0` raises in Python).  The divisions are attempted in
source order, so with `slope == 0` the very first line
(`tilt = screenH / (screenW * slope)`) raises.  The source contains no
guard of any kind around these divisions. -/
def calculate_derived_checked (sin atan : ℚ → ℚ) (c : Calib) :
    Except PyErr Calib :=
  if c.screenW * c.slope = 0 then .error .zeroDivisionError
  else if c.DPI = 0 then .error .zeroDivisionError
  else if 3 * c.screenW = 0 then .error .zeroDivisionError
  else .ok (calculate_derived sin atan c)

/-! ### `HoloPlayService.get_devices` -/

/-- One entry of the `devices` list of a driver reply. -/
structure HPDevice where
  state : String
  hardwareVersion : String
  calibration : Calib
deriving DecidableEq

/-- The decoded reply envelope `{"error": ..., "version": ...,
"devices": [...]}`. -/
structure HPReply where
  error : Int
  version : String
  devices : List HPDevice
deriving DecidableEq

/-- `HoloPlayService.get_devices()`.  `ready` models `is_ready()` and
`resp` the decoded reply of `__send_message` (`none` when no response
arrived).  On a zero error code the reply's device list is filtered to
the entries with `state == "ok"`; the code then iterates over that list,
but the `return devices` statement is indented inside the `for` body, so
the function returns during the first iteration: only the first ok
device's calibration has been run through `__calculate_derived` when the
list is returned, and with zero ok devices the loop body never runs and
the function falls through returning `None`.  (The value-object
flattening applied to the same first calibration dict is the identity in
this model, whose calibration records are already flat.) -/
def get_devices (sin atan : ℚ → ℚ) (ready : Bool) (resp : Option HPReply) :
    Option (List HPDevice) :=
  if ready then
    match resp with
    | some r =>
        if r.error = 0 then
          match r.devices.filter (fun d => d.state = "ok") with
          | [] => none
          | dev :: rest =>
              some ({ dev with
                        calibration :=
                          calculate_derived sin atan dev.calibration } :: rest)
        else none
    | none => none
  else none

/-! ### `ServiceManager`

Services are identified by opaque handles (`Nat`).  The class attribute
that `get_active`/`set_active`/`add` use is `__active`; `reset_active`
however assigns `cls.__service_active = None`, a different (misspelled)
attribute that nothing else reads, so it never clears `__active`.  Both
attributes are carried in the state to model this faithfully. -/

/-- The class-level state of `ServiceManager`. -/
structure SMState where
  active : Option Nat
  service_active : Option Nat
  service_list : List Nat
deriving DecidableEq

/-- `ServiceManager.get_active()`: reads `cls.__active`. -/
def sm_get_active (s : SMState) : Option Nat := s.active

/-- `ServiceManager.reset_active()`: executes
`cls.__service_active = None`, which creates/overwrites the attribute
`__service_active` and leaves `__active` untouched. -/
def sm_reset_active (s : SMState) : SMState := { s with service_active := none }

/-- `ServiceManager.remove(service)`: when the service is in the list,
`reset_active` is called if it is the active one, the service is removed
from the list and `True` is returned; otherwise the body is skipped and
the method implicitly returns `None` (no exception). -/
def sm_remove (s : SMState) (svc : Nat) : SMState × Option Bool :=
  if svc ∈ s.service_list then
    let s1 := if sm_get_active s = some svc then sm_reset_active s else s
    ({ s1 with service_list := s1.service_list.erase svc }, some true)
  else (s, none)

/-! ### `DeviceManager` and `BaseDeviceType` -/

/-- A device configuration dict (a driver report entry or an
`emulated_configuration`).  `calSerial` is `configuration['calibration']['serial']`,
`topSerial` the optional top-level `configuration['serial']` key (absent
from driver reports and from both shipped `emulated_configuration`
presets), and `payload` abstracts the remaining fields. -/
structure DevConfig where
  hardwareVersion : String
  calSerial : String
  topSerial : Option String
  payload : Nat
deriving DecidableEq

/-- A `BaseDeviceType` instance. `lightfield` is the optional reference
to the lightfield currently displayed on the device. -/
structure Device where
  id : Nat
  type : String
  emulated : Bool
  connected : Bool
  configuration : DevConfig
  lightfield : Option Nat
deriving DecidableEq

/-- The `serial` property of `BaseDeviceType`: for an emulated device it
reads `configuration['serial']` — raising `KeyError` when that key is
absent, which is the case for both shipped dummy configurations — and
for a real device it reads `configuration['calibration']['serial']`. -/
def devSerial (d : Device) : Except PyErr String :=
  if d.emulated then
    match d.configuration.topSerial with
    | some s => .ok s
    | none => .error .keyError
  else .ok d.configuration.calSerial

/-- The class-level state of `DeviceManager`: the never-decremented
`__dev_count`, the device list `__dev_list`, and the active selection
`__dev_active` (modelled by the selected device's id; no claim depends
on the difference between the stored Python object reference and an id
lookup). -/
structure DMState where
  dev_count : Nat
  dev_list : List Device
  dev_active : Option Nat
deriving DecidableEq

/-- The known `BaseDeviceType` subclasses, keyed by their `type` tag
(`LookingGlass_8_9inch.type = "standard"`,
`LookingGlass_portrait.type = "portrait"`). -/
def deviceTypeExists (t : String) : Bool :=
  t = "standard" || t = "portrait"

/-- The `emulated_configuration` preset of the device type class with
the given tag.  Neither preset carries a top-level `serial` key. -/
def emulatedConfiguration (t : String) : DevConfig :=
  if t = "standard" then ⟨"standard", "LKG-1-DUMMY", none, 0⟩
  else ⟨"portrait", "LKG-5-DUMMY", none, 0⟩

/-- `BaseDeviceType.__init__` composed with `DeviceManager.add_device`:
the subclass with the matching `type` tag is looked up (no match raises
`ValueError`); the new instance's `id` is set to `DeviceManager.count()`,
i.e. to the CURRENT LENGTH of `__dev_list` (not to `__dev_count`, which
is incremented afterwards and read by nothing); with a configuration the
device is connected and real, without one it is emulated, disconnected
and gets the type's dummy configuration; finally the device is appended.
The aspect-ratio entry the subclass constructors add to
`configuration['calibration']` is abstracted into the configuration
payload. -/
def add_device (st : DMState) (t : String) (cfg? : Option DevConfig) :
    Except PyErr (DMState × Device) :=
  if deviceTypeExists t then
    let d : Device :=
      match cfg? with
      | some cfg => ⟨st.dev_list.length, t, false, true, cfg, none⟩
      | none => ⟨st.dev_list.length, t, true, false, emulatedConfiguration t, none⟩
    .ok ({ st with dev_count := st.dev_count + 1,
                   dev_list := st.dev_list ++ [d] }, d)
  else .error .valueError

/-- `DeviceManager.remove_device(device)`: a device not in the list is a
`ValueError`.  The guard `if cls.get_active() == device.id:` compares a
Device object with an int, which is always `False` in Python (no custom
`__eq__`), so the active selection is never reset here and the device is
simply removed from the list. -/
def remove_device (st : DMState) (d : Device) : Except PyErr DMState :=
  if d ∈ st.dev_list then
    .ok { st with dev_list := st.dev_list.erase d }
  else .error .valueError

/-- `DeviceManager.set_active(id)`: selecting an id that no listed
device carries is a `ValueError`. -/
def dm_set_active (st : DMState) (i : Nat) : Except PyErr DMState :=
  if st.dev_list.any (fun d => d.id = i) then
    .ok { st with dev_active := some i }
  else .error .valueError

/-- `DeviceManager.get_active()` as an observation of the state: the
device currently designated active, if any. -/
def dm_get_active (st : DMState) : Option Device :=
  st.dev_active.bind (fun i => st.dev_list.find? (fun d => d.id = i))

/-- The first phase of `refresh()`: every non-emulated device in the
list is marked disconnected in place. -/
def markDisconnected (l : List Device) : List Device :=
  l.map (fun d => if d.emulated = false then { d with connected := false } else d)

/-- In-place update of the first device whose computed serial matches
the report entry's calibration serial
(`instance[0].configuration = device; instance[0].connected = True`).
The pairs carry each device with its already-computed serial string. -/
def updFirst (pairs : List (Device × String)) (cfg : DevConfig) : List Device :=
  match pairs with
  | [] => []
  | (d, s) :: rest =>
      if s = cfg.calSerial then
        { d with configuration := cfg, connected := true } :: rest.map Prod.fst
      else d :: updFirst rest cfg

/-- The serial strings of all listed devices, in order: the `filter`
call in `refresh()` evaluates the `serial` property of EVERY listed
device, so a `KeyError` from any single device (an emulated one whose
configuration lacks the top-level `serial` key) aborts the whole
lookup. -/
def mapSerials : List Device → Except PyErr (List String)
  | [] => .ok []
  | d :: ds => do
      let s ← devSerial d
      let rest ← mapSerials ds
      pure (s :: rest)

/-- Processing of one report entry inside `refresh()`'s loop: the
lookup `list(filter(lambda d: d.serial == ..., cls.__dev_list))`
evaluates the `serial` property of every listed device (`mapSerials`).
A found instance is updated in place; otherwise a new device of the
reported hardware type is constructed and, when there is no active
device or the active one is disconnected, promoted to active. -/
def processDevice (st : DMState) (cfg : DevConfig) : Except PyErr DMState := do
  let sers ← mapSerials st.dev_list
  let pairs := st.dev_list.zip sers
  if pairs.any (fun p => p.2 = cfg.calSerial) then
    pure { st with dev_list := updFirst pairs cfg }
  else
    let (st2, dev) ← add_device st cfg.hardwareVersion (some cfg)
    if (dm_get_active st2).isNone ||
        (dm_get_active st2).any (fun a => a.connected = false) then
      dm_set_active st2 dev.id
    else pure st2

/-- `DeviceManager.refresh()`.  `ready` models
`cls.__dev_service and cls.__dev_service.is_ready()`; when false the
method only prints and changes nothing.  Otherwise all non-emulated
devices are first marked disconnected; `report` is the result of
`get_devices()` (`none` for Python `None`), and a falsy result (absent
or empty list) skips the reconciliation loop. -/
def refresh (ready : Bool) (report : Option (List DevConfig)) (st : DMState) :
    Except PyErr DMState :=
  if ready then
    let st1 := { st with dev_list := markDisconnected st.dev_list }
    match report with
    | some devices =>
        if devices.isEmpty then pure st1
        else devices.foldlM processDevice st1
    | none => pure st1
  else pure st

/-- Pure form of `updFirst` once every listed device's serial is known to
be its calibration serial (the non-emulated case): update the first
device whose calibration serial matches the report entry. -/
def updFirstSer (l : List Device) (cfg : DevConfig) : List Device :=
  match l with
  | [] => []
  | d :: ds =>
      if d.configuration.calSerial = cfg.calSerial then
        { d with configuration := cfg, connected := true } :: ds
      else d :: updFirstSer ds cfg

/-! ### Concrete fixtures used by the evaluation theorems and witnesses -/

/-- A duplicate 2k-sized catalog entry used to exhibit that the catalog
scan of `load` lets the last matching entry win. -/
def qfmt1dup : QuiltFormat := ⟨"2k duplicate", 2048, 2048, 500, 250, 4, 8⟩

/-- A raw calibration record as reported by the driver (no derived keys
present yet). -/
def c2cal1 : Calib :=
  ⟨338, 2560, 1600, 1/2, 3, false, 40, "LKG-A", none, none, none, none, none⟩

/-- A second raw calibration record, for a second reported device. -/
def c2cal2 : Calib :=
  ⟨324, 1536, 2048, 1/10, 5, true, 58, "LKG-B", none, none, none, none, none⟩

/-- First reported device, state "ok". -/
def c2dev1 : HPDevice := ⟨"ok", "standard", c2cal1⟩

/-- Second reported device, state "ok". -/
def c2dev2 : HPDevice := ⟨"ok", "portrait", c2cal2⟩

/-- A driver reply with a zero error code and two ok devices (plus one
device in a non-ok state that enumeration must drop). -/
def c2reply : HPReply :=
  ⟨0, "1.1.0", [c2dev1, ⟨"missing", "standard", c2cal1⟩, c2dev2]⟩

/-- A raw calibration record with `slope == 0`. -/
def slopeZeroCal : Calib :=
  ⟨338, 2560, 1600, 0, 3, false, 40, "LKG-Z", none, none, none, none, none⟩

/-- A well-formed raw calibration record with nonzero `slope`, `screenW`
and `DPI`. -/
def c9okCal : Calib :=
  ⟨338, 2560, 1600, 1, 3, false, 40, "LKG-OK", none, none, none, none, none⟩

/-- Device configurations for the id-assignment scenario. -/
def c8cfgA : DevConfig := ⟨"standard", "SER-A", none, 1⟩

/-- Second device configuration for the id-assignment scenario. -/
def c8cfgB : DevConfig := ⟨"standard", "SER-B", none, 2⟩

/-- Third device configuration for the id-assignment scenario. -/
def c8cfgC : DevConfig := ⟨"standard", "SER-C", none, 3⟩

/-- The device created first in the id-assignment scenario (id 0). -/
def c8devA : Device := ⟨0, "standard", false, true, c8cfgA, none⟩

/-- The device created second in the id-assignment scenario (id 1). -/
def c8devB : Device := ⟨1, "standard", false, true, c8cfgB, none⟩

/-- The device created after removing the first one: it also gets id 1
because ids are taken from the current list length. -/
def c8devC : Device := ⟨1, "standard", false, true, c8cfgC, none⟩

/-- The configuration a tracked device was created from. -/
def c3cfg0 : DevConfig := ⟨"standard", "SER-1", none, 7⟩

/-- A fresh driver report entry carrying the same serial. -/
def c3cfg1 : DevConfig := ⟨"standard", "SER-1", none, 8⟩

/-- A tracked, connected, non-emulated device with a displayed
lightfield (reference 42). -/
def c3dev : Device := ⟨0, "standard", false, true, c3cfg0, some 42⟩

/-- A device-manager state tracking exactly `c3dev`. -/
def c3st : DMState := ⟨1, [c3dev], none⟩

/-! ## Supporting lemmas -/

/-- Division of a decomposed index: the quotient recovers the leading
component. -/
theorem mulAddDiv (a D x : Nat) (hD : 0 < D) (hx : x < D) :
    (a * D + x) / D = a := by
  rw [Nat.add_comm, Nat.add_mul_div_right _ _ hD, Nat.div_eq_of_lt hx,
    Nat.zero_add]

/-- Remainder of a decomposed index: the remainder recovers the trailing
components. -/
theorem mulAddMod (a D x : Nat) (hx : x < D) : (a * D + x) % D = x := by
  rw [Nat.add_comm, Nat.add_mul_mod_self_right, Nat.mod_eq_of_lt hx]

/-- `swapIdx` on an index given in decomposed form swaps the two middle
components. -/
theorem swapIdx_decomp (b c d e i k j r : Nat)
    (hk : k < c) (hj : j < b) (hr : r < d * e) :
    swapIdx b c d e (i * (c * (b * (d * e))) + (k * (b * (d * e)) + (j * (d * e) + r))) =
      i * (b * (c * (d * e))) + (j * (c * (d * e)) + (k * (d * e) + r)) := by
  have hde : 0 < d * e := Nat.lt_of_le_of_lt (Nat.zero_le r) hr
  have hY : j * (d * e) + r < b * (d * e) := by
    calc j * (d * e) + r < j * (d * e) + d * e := Nat.add_lt_add_left hr _
      _ = (j + 1) * (d * e) := by ring
      _ ≤ b * (d * e) := Nat.mul_le_mul_right _ hj
  have hX : k * (b * (d * e)) + (j * (d * e) + r) < c * (b * (d * e)) := by
    calc k * (b * (d * e)) + (j * (d * e) + r)
        < k * (b * (d * e)) + b * (d * e) := Nat.add_lt_add_left hY _
      _ = (k + 1) * (b * (d * e)) := by ring
      _ ≤ c * (b * (d * e)) := Nat.mul_le_mul_right _ hk
  have hD : 0 < c * (b * (d * e)) :=
    Nat.mul_pos (Nat.lt_of_le_of_lt (Nat.zero_le k) hk)
      (Nat.mul_pos (Nat.lt_of_le_of_lt (Nat.zero_le j) hj) hde)
  have hB : 0 < b * (d * e) :=
    Nat.mul_pos (Nat.lt_of_le_of_lt (Nat.zero_le j) hj) hde
  unfold swapIdx
  rw [mulAddDiv _ _ _ hD hX, mulAddMod _ _ _ hX, mulAddDiv _ _ _ hB hY,
    mulAddMod _ _ _ hY, mulAddDiv _ _ _ hde hr, mulAddMod _ _ _ hr]

/-- `swapaxes(1, 2)` is an involution on flat indices: decoding the
index permutation of an encode is the identity. -/
theorem swapIdx_swapIdx (b c d e n : Nat)
    (hb : 0 < b) (hc : 0 < c) (hde : 0 < d * e) :
    swapIdx b c d e (swapIdx c b d e n) = n := by
  have hD1 : 0 < b * (c * (d * e)) := Nat.mul_pos hb (Nat.mul_pos hc hde)
  have hC : 0 < c * (d * e) := Nat.mul_pos hc hde
  have hk : n % (b * (c * (d * e))) / (c * (d * e)) < b :=
    Nat.div_lt_of_lt_mul
      (by rw [Nat.mul_comm (c * (d * e)) b]; exact Nat.mod_lt _ hD1)
  have hj : n % (b * (c * (d * e))) % (c * (d * e)) / (d * e) < c :=
    Nat.div_lt_of_lt_mul
      (by rw [Nat.mul_comm (d * e) c]; exact Nat.mod_lt _ hC)
  have hr : n % (b * (c * (d * e))) % (c * (d * e)) % (d * e) < d * e :=
    Nat.mod_lt _ hde
  have hinner : swapIdx c b d e n =
      n / (b * (c * (d * e))) * (c * (b * (d * e))) +
      (n % (b * (c * (d * e))) % (c * (d * e)) / (d * e) * (b * (d * e)) +
       (n % (b * (c * (d * e))) / (c * (d * e)) * (d * e) +
        n % (b * (c * (d * e))) % (c * (d * e)) % (d * e))) := rfl
  rw [hinner, swapIdx_decomp b c d e _ _ _ _ hj hk hr]
  rw [Nat.div_add_mod' (n % (b * (c * (d * e))) % (c * (d * e))) (d * e)]
  rw [Nat.div_add_mod' (n % (b * (c * (d * e)))) (c * (d * e))]
  exact Nat.div_add_mod' n (b * (c * (d * e)))

/-! ## Claim C1 -/

/-- C1, counterexample.  The claim quantifies over every catalog layout,
but for catalog entry 2 (the "4k Quilt": 4096 × 4096 quilt pixels,
5 × 9 views of 819 × 455) the encoder's final reshape is impossible:
the stacked views hold `9 * 5 * 455 * 819 * 4 = 4095 * 4095 * 4`
elements while the target shape `(4096, 4096, 4)` requires
`4096 * 4096 * 4`, so `__from_views_to_quilt_numpy` raises a numpy
reshape error (modelled as `none`) and the round trip never produces the
views back.  The same holds for entry 3 (8192 vs 8190). -/
theorem C1_counterexample :
    from_views_to_quilt_numpy (metadataOfFormat qfmt2) 4 45 (fun _ => 0) = none := by
  norm_num [from_views_to_quilt_numpy, metadataOfFormat, qfmt2]

/-- C1, amended: for every layout whose quilt dimensions are exactly the
view grid — `quilt_height = rows * view_height` and
`quilt_width = columns * view_width`, which holds for catalog entries 1,
4 and 5 but not 2 and 3 — encoding `rows * columns` uniform views with
`__from_views_to_quilt_numpy` succeeds, and decoding the resulting quilt
grid with the reshape pipeline of `load` returns exactly the original
stacked views.  Moreover the quilt places view
`(y / view_height) * columns + (x / view_width)` at pixel `(y, x)`: view
index 0 sits at the top-left and views are ordered left-to-right, then
top-to-bottom. -/
theorem C1_quilt_roundtrip (m : Metadata) (ch nv : Nat) (f : Nat → Nat)
    (hcnt : m.count = m.rows * m.columns)
    (hnv : nv = m.rows * m.columns)
    (hH : m.quilt_height = m.rows * m.view_height)
    (hW : m.quilt_width = m.columns * m.view_width)
    (hcols : 0 < m.columns) (hvh : 0 < m.view_height)
    (hvw : 0 < m.view_width) (hch : 0 < ch) :
    ∃ q, from_views_to_quilt_numpy m ch nv f = some q ∧
      quilt_to_views m ch m.quilt_height m.quilt_width q = some f ∧
      ∀ y x p, y < m.quilt_height → x < m.quilt_width → p < ch →
        q (y * (m.quilt_width * ch) + (x * ch + p)) =
          f ((y / m.view_height * m.columns + x / m.view_width) *
               (m.view_height * (m.view_width * ch)) +
             (y % m.view_height * (m.view_width * ch) +
              (x % m.view_width * ch + p))) := by
  have hde : 0 < m.view_width * ch := Nat.mul_pos hvw hch
  refine ⟨fun n => f (swapIdx m.columns m.view_height m.view_width ch n),
    ?_, ?_, ?_⟩
  · unfold from_views_to_quilt_numpy
    rw [if_pos (by rw [hnv]; ring), if_pos (by rw [hH, hW]; ring)]
  · simp only [quilt_to_views]
    rw [hH, hW, Nat.min_self, Nat.min_self]
    rw [if_pos (by ring), if_pos (by rw [hcnt]; ring)]
    refine congrArg some (funext fun n => ?_)
    rw [Nat.div_add_mod']
    exact congrArg f
      (swapIdx_swapIdx m.columns m.view_height m.view_width ch n hcols hvh hde)
  · intro y x p hy hx hp
    have hu : y % m.view_height < m.view_height := Nat.mod_lt _ hvh
    have hjj : x / m.view_width < m.columns :=
      Nat.div_lt_of_lt_mul
        (by rw [Nat.mul_comm m.view_width m.columns, ← hW]; exact hx)
    have hxr : x % m.view_width < m.view_width := Nat.mod_lt _ hvw
    have hrb : x % m.view_width * ch + p < m.view_width * ch := by
      calc x % m.view_width * ch + p
          < x % m.view_width * ch + ch := Nat.add_lt_add_left hp _
        _ = (x % m.view_width + 1) * ch := by ring
        _ ≤ m.view_width * ch := Nat.mul_le_mul_right _ hxr
    have hN : y * (m.quilt_width * ch) + (x * ch + p) =
        y / m.view_height *
          (m.view_height * (m.columns * (m.view_width * ch))) +
        (y % m.view_height * (m.columns * (m.view_width * ch)) +
         (x / m.view_width * (m.view_width * ch) +
          (x % m.view_width * ch + p))) := by
      rw [hW]
      conv_lhs =>
        rw [← Nat.div_add_mod y m.view_height, ← Nat.div_add_mod x m.view_width]
      ring
    show f (swapIdx m.columns m.view_height m.view_width ch
        (y * (m.quilt_width * ch) + (x * ch + p))) = _
    rw [hN, swapIdx_decomp m.columns m.view_height m.view_width ch
      (y / m.view_height) (y % m.view_height) (x / m.view_width)
      (x % m.view_width * ch + p) hu hjj hrb]
    exact congrArg f (by ring)

/-- C1, witness: the amended round trip instantiated at catalog entry 1
(the "2k Quilt": 4 × 8 views of 512 × 256, RGBA), with the stacked views
`fun n => n`. -/
theorem C1_quilt_roundtrip_witness :
    32 = (metadataOfFormat qfmt1).rows * (metadataOfFormat qfmt1).columns ∧
    (metadataOfFormat qfmt1).quilt_height =
      (metadataOfFormat qfmt1).rows * (metadataOfFormat qfmt1).view_height ∧
    (metadataOfFormat qfmt1).quilt_width =
      (metadataOfFormat qfmt1).columns * (metadataOfFormat qfmt1).view_width ∧
    ∃ q, from_views_to_quilt_numpy (metadataOfFormat qfmt1) 4 32 (fun n => n) =
          some q ∧
      quilt_to_views (metadataOfFormat qfmt1) 4
          (metadataOfFormat qfmt1).quilt_height
          (metadataOfFormat qfmt1).quilt_width q = some (fun n => n) ∧
      ∀ y x p, y < (metadataOfFormat qfmt1).quilt_height →
        x < (metadataOfFormat qfmt1).quilt_width → p < 4 →
        q (y * ((metadataOfFormat qfmt1).quilt_width * 4) + (x * 4 + p)) =
          (fun n => n)
            ((y / (metadataOfFormat qfmt1).view_height *
                (metadataOfFormat qfmt1).columns +
              x / (metadataOfFormat qfmt1).view_width) *
               ((metadataOfFormat qfmt1).view_height *
                ((metadataOfFormat qfmt1).view_width * 4)) +
             (y % (metadataOfFormat qfmt1).view_height *
                ((metadataOfFormat qfmt1).view_width * 4) +
              (x % (metadataOfFormat qfmt1).view_width * 4 + p))) :=
  ⟨by decide, by decide, by decide,
   C1_quilt_roundtrip (metadataOfFormat qfmt1) 4 32 (fun n => n)
     (by decide) (by decide) (by decide) (by decide)
     (by decide) (by decide) (by decide) (by decide)⟩

/-! ## Claim C5 -/

/-- C5.  The claim says the catalog scan of `load` accepts image
dimensions within one pixel of a format in each direction — `width - 1`,
`width` and `width + 1` — and that the first of several matching catalog
entries wins.  The code's own comment states the same ±1 intent, but
`range(quilt_width - 1, quilt_width + 1)` excludes its upper bound, so a
`2049 × 2049` image matches nothing (entry 1 is `2048 × 2048`) and
`load` raises its format `TypeError`; `2047 × 2047` is accepted.  And
because the scan has no `break`, of two matching entries the LAST one
wins, not the first. -/
theorem C5_load_tolerance :
    selectFormat formats_values 2049 2049 = none ∧
    selectFormat formats_values 2047 2047 = some qfmt1 ∧
    selectFormat formats_values 2048 2048 = some qfmt1 ∧
    selectFormat [qfmt1, qfmt1dup] 2048 2048 = some qfmt1dup := by
  decide

/-! ## Claim C7 -/

/-- C7.  Removing the active service from the `ServiceManager` does drop
it from the service list, and removing an unlisted service is a silent
no-op — but `get_active()` still returns the removed service: the claim
that the active selection becomes empty is false, because
`reset_active()` assigns the misspelled attribute
`cls.__service_active` while `get_active()` reads `cls.__active`. -/
theorem C7_remove_active :
    sm_remove ⟨some 7, none, [7]⟩ 7 = (⟨some 7, none, []⟩, some true) ∧
    sm_get_active (sm_remove ⟨some 7, none, [7]⟩ 7).1 = some 7 ∧
    sm_remove ⟨some 7, none, [7]⟩ 9 = (⟨some 7, none, [7]⟩, none) := by
  decide

/-! ## Claim C10 -/

/-- C10.  Constructing a second `LookingGlassQuilt` does NOT leave the
first instance's layout metadata unchanged: `__metadata` is one shared
class-level dict that every constructor mutates in place, so after
`LookingGlassQuilt(id=1); LookingGlassQuilt(id=2)` the metadata observed
by both instances carries format 2's dimensions (4096, no longer
2048). -/
theorem C10_shared_metadata :
    lgq_init ⟨zeroMetadata, []⟩ (some 1) =
      .ok ⟨metadataOfFormat qfmt1, [⟨"RGBA", 4, [], none⟩]⟩ ∧
    lgq_init ⟨metadataOfFormat qfmt1, [⟨"RGBA", 4, [], none⟩]⟩ (some 2) =
      .ok ⟨metadataOfFormat qfmt2,
           [⟨"RGBA", 4, [], none⟩, ⟨"RGBA", 4, [], none⟩]⟩ ∧
    (metadataOfFormat qfmt1).quilt_width = 2048 ∧
    (metadataOfFormat qfmt2).quilt_width = 4096 ∧
    metadataOfFormat qfmt2 ≠ metadataOfFormat qfmt1 :=
  ⟨rfl, rfl, rfl, rfl, by decide⟩

/-! ## Claim C2 -/

/-- C2.  With a ready service and a zero-error reply carrying several
devices in state "ok", `get_devices` does return exactly the ok-state
devices — but `__calculate_derived` has been applied only to the FIRST
of them: the misindented `return devices` inside the loop returns during
the first iteration, so the second returned device still has no `tilt`
or `fringe` key.  With zero ok devices the function falls through and
returns `None` instead of the empty list. -/
theorem C2_first_device_only :
    get_devices (fun x => x) (fun x => x) true (some c2reply) =
      some [{ c2dev1 with calibration :=
                calculate_derived (fun x => x) (fun x => x) c2cal1 },
            c2dev2] ∧
    (calculate_derived (fun x => x) (fun x => x) c2cal1).tilt.isSome = true ∧
    (calculate_derived (fun x => x) (fun x => x) c2cal1).fringe.isSome = true ∧
    c2dev2.calibration.tilt = none ∧
    c2dev2.calibration.fringe = none ∧
    get_devices (fun x => x) (fun x => x) true
      (some ⟨0, "1.1.0", [⟨"missing", "standard", c2cal1⟩]⟩) = none := by
  refine ⟨rfl, rfl, rfl, rfl, rfl, rfl⟩

/-! ## Claim C4 -/

/-- C4.  `__calculate_derived` is a pure function of the input record
(determinism is inherent in the embedding) that derives exactly the
specified fields: `tilt = screenH / (screenW * slope)`, `pitch` replaced
by `-(screenW / DPI) * pitch * sin(atan(|slope|))`, `subp` computed from
the freshly derived pitch as `pitch' / (3 * screenW)`,
`(ri, bi) = (2, 0)` iff `flipSubp` else `(0, 2)`, `fringe = 0.0`, and
every other calibration field is passed through unchanged. -/
theorem C4_calculate_derived (sin atan : ℚ → ℚ) (c : Calib) :
    (calculate_derived sin atan c).tilt =
      some (c.screenH / (c.screenW * c.slope)) ∧
    (calculate_derived sin atan c).pitch =
      -(c.screenW / c.DPI) * c.pitch * sin (atan |c.slope|) ∧
    (calculate_derived sin atan c).subp =
      some ((calculate_derived sin atan c).pitch / (3 * c.screenW)) ∧
    (calculate_derived sin atan c).ri =
      some (if c.flipSubp then 2 else 0) ∧
    (calculate_derived sin atan c).bi =
      some (if c.flipSubp then 0 else 2) ∧
    (calculate_derived sin atan c).fringe = some 0 ∧
    (calculate_derived sin atan c).DPI = c.DPI ∧
    (calculate_derived sin atan c).screenW = c.screenW ∧
    (calculate_derived sin atan c).screenH = c.screenH ∧
    (calculate_derived sin atan c).slope = c.slope ∧
    (calculate_derived sin atan c).flipSubp = c.flipSubp ∧
    (calculate_derived sin atan c).viewCone = c.viewCone ∧
    (calculate_derived sin atan c).serial = c.serial := by
  cases hf : c.flipSubp <;>
    simp [calculate_derived, hf] <;> ring

/-! ## Claim C9 -/

/-- C9, counterexample.  A record with `slope == 0` is NOT rejected with
a validation error: `__calculate_derived` contains no guard, and the
very first statement divides by `screenW * slope == 0`, so Python raises
an unguarded `ZeroDivisionError`. -/
theorem C9_slope_zero_counterexample :
    calculate_derived_checked (fun x => x) (fun x => x) slopeZeroCal =
      .error .zeroDivisionError ∧
    PyErr.zeroDivisionError ≠ PyErr.valueError :=
  ⟨by norm_num [calculate_derived_checked, slopeZeroCal], by decide⟩

/-- C9, amended: the derivation is total for every record whose divisors
are nonzero — `screenW * slope ≠ 0` and `DPI ≠ 0` — but an input with
`slope == 0` makes the first division raise an unguarded
`ZeroDivisionError`; no validation error is ever produced. -/
theorem C9_total_unless_zero_divisor (sin atan : ℚ → ℚ) (c : Calib)
    (h1 : c.screenW * c.slope ≠ 0) (h2 : c.DPI ≠ 0) :
    calculate_derived_checked sin atan c =
      .ok (calculate_derived sin atan c) := by
  have hW : c.screenW ≠ 0 := fun h => h1 (by rw [h, zero_mul])
  have h3 : (3 : ℚ) * c.screenW ≠ 0 :=
    mul_ne_zero (by norm_num) hW
  simp [calculate_derived_checked, h1, h2, h3]

/-- C9, witness: the amended totality applied to a concrete well-formed
record with `slope = 1`. -/
theorem C9_total_witness :
    c9okCal.screenW * c9okCal.slope ≠ 0 ∧ c9okCal.DPI ≠ 0 ∧
    calculate_derived_checked (fun x => x) (fun x => x) c9okCal =
      .ok (calculate_derived (fun x => x) (fun x => x) c9okCal) :=
  ⟨by norm_num [c9okCal], by norm_num [c9okCal],
   C9_total_unless_zero_divisor (fun x => x) (fun x => x) c9okCal
     (by norm_num [c9okCal]) (by norm_num [c9okCal])⟩

/-! ## Claim C6 -/

/-- C6.  `set_views` accepts and stores a views list exactly when its
length equals the layout's `rows * columns` view count (the metadata's
`count` field, which both constructor branches and `load` always set to
`rows * columns`, as the last conjunct shows); any other length raises a
`ValueError` carrying the actual and the expected counts and leaves the
instance — in particular its stored views — unchanged. -/
theorem C6_set_views_validation (m : Metadata) (inst : QuiltInst)
    (views : List Nat) (fmt : Nat)
    (hm : m.count = m.rows * m.columns) :
    (((set_views m inst views fmt).2 = none ∧
      (set_views m inst views fmt).1 =
        { inst with views := views, views_format := some fmt }) ↔
      views.length = m.rows * m.columns) ∧
    (views.length ≠ m.rows * m.columns →
      (set_views m inst views fmt).2 =
        some (views.length, m.rows * m.columns) ∧
      (set_views m inst views fmt).1 = inst) ∧
    (∀ (st st' : QuiltClassState) (id? : Option Nat),
      lgq_init st id? = .ok st' →
      st'.metadata.count = st'.metadata.rows * st'.metadata.columns) := by
  rw [← hm]
  refine ⟨?_, ?_, ?_⟩
  · by_cases h : views.length = m.count <;> simp [set_views, h]
  · intro h
    simp [set_views, h]
  · intro st st' i h
    by_cases h0 : i.getD 0 = 0
    · simp only [lgq_init, h0, if_pos, Except.ok.injEq] at h
      rw [← h]
      rfl
    · simp only [lgq_init, h0, if_neg, if_false] at h
      cases hg : formats_get (i.getD 0) with
      | none => rw [hg] at h; exact absurd h (by simp)
      | some qf =>
          rw [hg] at h
          simp only [Except.ok.injEq] at h
          rw [← h]
          rfl

/-- C6, witness: the validation applied to a quilt bound to catalog
entry 1 (32 views expected) and a list of 32 views. -/
theorem C6_set_views_witness :
    (metadataOfFormat qfmt1).count =
      (metadataOfFormat qfmt1).rows * (metadataOfFormat qfmt1).columns ∧
    ((((set_views (metadataOfFormat qfmt1) ⟨"RGBA", 4, [], none⟩
          (List.replicate 32 0) 1).2 = none ∧
       (set_views (metadataOfFormat qfmt1) ⟨"RGBA", 4, [], none⟩
          (List.replicate 32 0) 1).1 =
         { (⟨"RGBA", 4, [], none⟩ : QuiltInst) with
             views := List.replicate 32 0, views_format := some 1 }) ↔
      (List.replicate 32 0).length =
        (metadataOfFormat qfmt1).rows * (metadataOfFormat qfmt1).columns) ∧
     ((List.replicate 32 0).length ≠
        (metadataOfFormat qfmt1).rows * (metadataOfFormat qfmt1).columns →
       (set_views (metadataOfFormat qfmt1) ⟨"RGBA", 4, [], none⟩
          (List.replicate 32 0) 1).2 =
         some ((List.replicate 32 0).length,
           (metadataOfFormat qfmt1).rows * (metadataOfFormat qfmt1).columns) ∧
       (set_views (metadataOfFormat qfmt1) ⟨"RGBA", 4, [], none⟩
          (List.replicate 32 0) 1).1 = ⟨"RGBA", 4, [], none⟩) ∧
     (∀ (st st' : QuiltClassState) (id? : Option Nat),
       lgq_init st id? = .ok st' →
       st'.metadata.count = st'.metadata.rows * st'.metadata.columns)) :=
  ⟨rfl, C6_set_views_validation (metadataOfFormat qfmt1) ⟨"RGBA", 4, [], none⟩
    (List.replicate 32 0) 1 rfl⟩

/-! ## Claim C8 -/

/-- C8.  Device ids are NOT never-reused: `BaseDeviceType.__init__` sets
`self.id = DeviceManager.count()`, the current length of the device
list, not the never-decremented `__dev_count` that the code's own
comment says exists "to prevent ambiguities of the id".  Adding devices
A and B (ids 0 and 1), removing A and adding C gives C the id 1 already
carried by B, while `__dev_count` correctly reaches 3. -/
theorem C8_id_reuse :
    add_device ⟨0, [], none⟩ "standard" (some c8cfgA) =
      .ok (⟨1, [c8devA], none⟩, c8devA) ∧
    add_device ⟨1, [c8devA], none⟩ "standard" (some c8cfgB) =
      .ok (⟨2, [c8devA, c8devB], none⟩, c8devB) ∧
    remove_device ⟨2, [c8devA, c8devB], none⟩ c8devA =
      .ok ⟨2, [c8devB], none⟩ ∧
    add_device ⟨2, [c8devB], none⟩ "standard" (some c8cfgC) =
      .ok (⟨3, [c8devB, c8devC], none⟩, c8devC) ∧
    c8devB.id = 1 ∧ c8devC.id = 1 ∧ c8devC ≠ c8devB :=
  ⟨rfl, rfl, by rfl, rfl, rfl, rfl, by decide⟩

/-! ## Claim C3: supporting lemmas -/

/-- Bind on a successful `Except` computation. -/
theorem except_bind_ok {α β : Type} (a : α) (f : α → Except PyErr β) :
    (Except.ok a : Except PyErr α) >>= f = f a := rfl

/-- Bind on a failed `Except` computation. -/
theorem except_bind_err {α β : Type} (err : PyErr) (f : α → Except PyErr β) :
    (Except.error err : Except PyErr α) >>= f = .error err := rfl

/-- When no listed device is emulated, every serial lookup succeeds and
returns the device's calibration serial. -/
theorem mapSerials_ok (l : List Device) (h : ∀ x ∈ l, x.emulated = false) :
    mapSerials l = .ok (l.map (fun d => d.configuration.calSerial)) := by
  induction l with
  | nil => rfl
  | cons d ds ih =>
      have hd : d.emulated = false := h d (List.mem_cons_self _ _)
      have hds := ih (fun x hx => h x (List.mem_cons_of_mem _ hx))
      simp only [mapSerials, devSerial, hd, Bool.false_eq_true, if_false,
        except_bind_ok, hds, List.map_cons]
      rfl

/-- Searching the device/serial pairs for a serial is searching the
devices for a calibration serial. -/
theorem any_zip_serial (l : List Device) (s : String) :
    (l.zip (l.map (fun d => d.configuration.calSerial))).any
        (fun p => p.2 = s) =
      l.any (fun d => d.configuration.calSerial = s) := by
  induction l with
  | nil => rfl
  | cons d ds ih => simp [ih]

/-- On the pairs built from the devices and their calibration serials,
`updFirst` is the pure first-match update `updFirstSer`. -/
theorem updFirst_zip (l : List Device) (cfg : DevConfig) :
    updFirst (l.zip (l.map (fun d => d.configuration.calSerial))) cfg =
      updFirstSer l cfg := by
  induction l with
  | nil => rfl
  | cons d ds ih =>
      by_cases hd : d.configuration.calSerial = cfg.calSerial
      · simp only [List.map_cons, List.zip_cons_cons, updFirst, updFirstSer,
          if_pos hd]
        congr 1
        exact List.map_fst_zip ds _ (by rw [List.length_map])
      · simp only [List.map_cons, List.zip_cons_cons, updFirst, updFirstSer,
          if_neg hd]
        exact congrArg (fun l => d :: l) ih

/-- `updFirstSer` walks past a prefix with no matching serial. -/
theorem updFirstSer_skip (pre rest : List Device) (cfg : DevConfig)
    (h : ∀ x ∈ pre, x.configuration.calSerial ≠ cfg.calSerial) :
    updFirstSer (pre ++ rest) cfg = pre ++ updFirstSer rest cfg := by
  induction pre with
  | nil => rfl
  | cons p ps ih =>
      simp only [List.cons_append, updFirstSer,
        if_neg (h p (List.mem_cons_self _ _))]
      exact congrArg (fun l => p :: l)
        (ih (fun x hx => h x (List.mem_cons_of_mem _ hx)))

/-- `updFirstSer` updates a matching head in place. -/
theorem updFirstSer_cons_match (d : Device) (ds : List Device)
    (cfg : DevConfig) (h : d.configuration.calSerial = cfg.calSerial) :
    updFirstSer (d :: ds) cfg =
      { d with configuration := cfg, connected := true } :: ds := by
  simp [updFirstSer, h]

/-- Every element of an `updFirstSer` result is either an original
element or the in-place update of an original element. -/
theorem mem_updFirstSer (x : Device) (l : List Device) (cfg : DevConfig)
    (h : x ∈ updFirstSer l cfg) :
    x ∈ l ∨ ∃ y ∈ l, x = { y with configuration := cfg, connected := true } := by
  induction l with
  | nil => simp [updFirstSer] at h
  | cons d ds ih =>
      by_cases hd : d.configuration.calSerial = cfg.calSerial
      · rw [updFirstSer_cons_match d ds cfg hd] at h
        rcases List.mem_cons.mp h with h1 | h2
        · exact Or.inr ⟨d, List.mem_cons_self _ _, h1⟩
        · exact Or.inl (List.mem_cons_of_mem _ h2)
      · simp only [updFirstSer, if_neg hd] at h
        rcases List.mem_cons.mp h with h1 | h2
        · exact Or.inl (by rw [h1]; exact List.mem_cons_self _ _)
        · rcases ih h2 with h3 | ⟨y, hy, hxy⟩
          · exact Or.inl (List.mem_cons_of_mem _ h3)
          · exact Or.inr ⟨y, List.mem_cons_of_mem _ hy, hxy⟩

/-- A first-match update by an entry that matches neither the tracked
device nor the serial `S` preserves the `pre ++ dcur :: post` shape and
all the side conditions. -/
theorem updFirstSer_middle (pre post : List Device) (dcur : Device)
    (cfg : DevConfig) (S : String)
    (hne : dcur.configuration.calSerial ≠ cfg.calSerial)
    (hpreS : ∀ x ∈ pre, x.configuration.calSerial ≠ S)
    (hpostS : ∀ x ∈ post, x.configuration.calSerial ≠ S)
    (hcfg : cfg.calSerial ≠ S)
    (hepre : ∀ x ∈ pre, x.emulated = false)
    (hepost : ∀ x ∈ post, x.emulated = false) :
    ∃ pre2 post2,
      updFirstSer (pre ++ dcur :: post) cfg = pre2 ++ dcur :: post2 ∧
      (∀ x ∈ pre2, x.configuration.calSerial ≠ S) ∧
      (∀ x ∈ post2, x.configuration.calSerial ≠ S) ∧
      (∀ x ∈ pre2, x.emulated = false) ∧
      (∀ x ∈ post2, x.emulated = false) := by
  induction pre with
  | nil =>
      refine ⟨[], updFirstSer post cfg, ?_, by simp, ?_, by simp, ?_⟩
      · simp only [List.nil_append, updFirstSer, if_neg hne]
      · intro x hx
        rcases mem_updFirstSer x post cfg hx with h1 | ⟨y, _, hxy⟩
        · exact hpostS x h1
        · rw [hxy]; exact hcfg
      · intro x hx
        rcases mem_updFirstSer x post cfg hx with h1 | ⟨y, hy, hxy⟩
        · exact hepost x h1
        · rw [hxy]; exact hepost y hy
  | cons p ps ih =>
      by_cases hp : p.configuration.calSerial = cfg.calSerial
      · refine ⟨{ p with configuration := cfg, connected := true } :: ps, post,
          ?_, ?_, hpostS, ?_, hepost⟩
        · rw [List.cons_append, updFirstSer_cons_match _ _ _ hp,
            List.cons_append]
        · intro x hx
          rcases List.mem_cons.mp hx with h1 | h2
          · rw [h1]; exact hcfg
          · exact hpreS x (List.mem_cons_of_mem _ h2)
        · intro x hx
          rcases List.mem_cons.mp hx with h1 | h2
          · rw [h1]; exact hepre p (List.mem_cons_self _ _)
          · exact hepre x (List.mem_cons_of_mem _ h2)
      · obtain ⟨pre2, post2, hu, h1, h2, h3, h4⟩ :=
          ih (fun x hx => hpreS x (List.mem_cons_of_mem _ hx))
            (fun x hx => hepre x (List.mem_cons_of_mem _ hx))
        refine ⟨p :: pre2, post2, ?_, ?_, h2, ?_, h4⟩
        · rw [List.cons_append, updFirstSer, if_neg hp, hu, List.cons_append]
        · intro x hx
          rcases List.mem_cons.mp hx with hx1 | hx2
          · rw [hx1]; exact hpreS p (List.mem_cons_self _ _)
          · exact h1 x hx2
        · intro x hx
          rcases List.mem_cons.mp hx with hx1 | hx2
          · rw [hx1]; exact hepre p (List.mem_cons_self _ _)
          · exact h3 x hx2

/-- Splitting `markDisconnected` around a non-emulated device. -/
theorem markDisconnected_split (pre post : List Device) (d : Device)
    (hd : d.emulated = false) :
    markDisconnected (pre ++ d :: post) =
      markDisconnected pre ++
        ({ d with connected := false } : Device) :: markDisconnected post := by
  simp [markDisconnected, hd]

/-- Marking devices disconnected changes neither their configuration
nor their emulated flag. -/
theorem mem_markDisconnected (x : Device) (l : List Device)
    (h : x ∈ markDisconnected l) :
    ∃ y ∈ l, x.configuration = y.configuration ∧ x.emulated = y.emulated := by
  simp only [markDisconnected, List.mem_map] at h
  obtain ⟨y, hy, hxy⟩ := h
  by_cases he : y.emulated = false <;>
    exact ⟨y, hy, by rw [← hxy]; simp [he], by rw [← hxy]; simp [he]⟩

/-- Decomposition of a successful `foldlM` step. -/
theorem foldlM_cons_ok {α β : Type} (f : β → α → Except PyErr β) (a : α)
    (as : List α) (s s' : β)
    (h : List.foldlM f s (a :: as) = .ok s') :
    ∃ s1, f s a = .ok s1 ∧ List.foldlM f s1 as = .ok s' := by
  rw [List.foldlM_cons] at h
  cases hfa : f s a with
  | error err =>
      rw [hfa, except_bind_err] at h
      exact absurd h (by simp)
  | ok s1 =>
      rw [hfa, except_bind_ok] at h
      exact ⟨s1, rfl, h⟩

/-- Case analysis of one successful `refresh()` loop step over a
registry of non-emulated devices: either some listed device matches the
entry's serial and the device list becomes the first-match update, or
none does and a new connected device — whose id is the current list
length — is appended. -/
theorem processDevice_ok (st st1 : DMState) (e : DevConfig)
    (hemul : ∀ x ∈ st.dev_list, x.emulated = false)
    (hok : processDevice st e = .ok st1) :
    (st.dev_list.any (fun d => d.configuration.calSerial = e.calSerial) = true ∧
       st1.dev_list = updFirstSer st.dev_list e) ∨
    (st.dev_list.any (fun d => d.configuration.calSerial = e.calSerial) = false ∧
       st1.dev_list = st.dev_list ++
         [⟨st.dev_list.length, e.hardwareVersion, false, true, e, none⟩]) := by
  simp only [processDevice, mapSerials_ok st.dev_list hemul, except_bind_ok,
    any_zip_serial] at hok
  by_cases hany :
      st.dev_list.any (fun d => d.configuration.calSerial = e.calSerial) = true
  · rw [if_pos hany] at hok
    left
    refine ⟨hany, ?_⟩
    rw [← Except.ok.inj hok]
    exact updFirst_zip st.dev_list e
  · have hany2 :
        st.dev_list.any (fun d => d.configuration.calSerial = e.calSerial) =
          false := by
      revert hany
      cases st.dev_list.any (fun d => d.configuration.calSerial = e.calSerial) <;>
        simp
    rw [if_neg hany] at hok
    right
    refine ⟨hany2, ?_⟩
    by_cases hty : deviceTypeExists e.hardwareVersion = true
    · simp only [add_device, hty, if_pos, except_bind_ok] at hok
      by_cases hcond :
          ((dm_get_active { st with
              dev_count := st.dev_count + 1,
              dev_list := st.dev_list ++
                [⟨st.dev_list.length, e.hardwareVersion, false, true, e,
                  none⟩] }).isNone ||
            (dm_get_active { st with
              dev_count := st.dev_count + 1,
              dev_list := st.dev_list ++
                [⟨st.dev_list.length, e.hardwareVersion, false, true, e,
                  none⟩] }).any (fun a => a.connected = false)) = true
      · rw [if_pos hcond] at hok
        have hfound :
            ({ st with
                dev_count := st.dev_count + 1,
                dev_list := st.dev_list ++
                  [⟨st.dev_list.length, e.hardwareVersion, false, true, e,
                    none⟩] } : DMState).dev_list.any
              (fun d => d.id =
                (⟨st.dev_list.length, e.hardwareVersion, false, true, e,
                  none⟩ : Device).id) = true := by
          simp
        simp only [dm_set_active, hfound, if_pos] at hok
        rw [← Except.ok.inj hok]
      · rw [if_neg hcond] at hok
        rw [← Except.ok.inj hok]
    · simp only [add_device, hty, if_neg, Bool.false_eq_true, if_false,
        except_bind_err] at hok
      exact absurd hok (by simp)

/-- Invariant of the `refresh()` reconciliation loop: a tracked
non-emulated device whose serial `S` is unique in the registry stays at
its place in the list; it is updated in place by the entries carrying
`S` and untouched by all the others, and freshly appended devices carry
other serials. -/
theorem refresh_fold_inv (S : String) (es : List DevConfig) :
    ∀ (st st' : DMState) (pre post : List Device) (dcur : Device),
      st.dev_list = pre ++ dcur :: post →
      (∀ x ∈ pre, x.emulated = false) →
      dcur.emulated = false →
      (∀ x ∈ post, x.emulated = false) →
      dcur.configuration.calSerial = S →
      (∀ x ∈ pre, x.configuration.calSerial ≠ S) →
      (∀ x ∈ post, x.configuration.calSerial ≠ S) →
      List.foldlM processDevice st es = .ok st' →
      ((S ∉ es.map (fun e => e.calSerial) →
         ∃ pre2 post2, st'.dev_list = pre2 ++ dcur :: post2) ∧
       ((es.map (fun e => e.calSerial)).Nodup →
         ∀ e ∈ es, e.calSerial = S →
           ∃ pre2 post2, st'.dev_list = pre2 ++
             ({ dcur with configuration := e, connected := true } : Device) ::
             post2)) := by
  induction es with
  | nil =>
      intro st st' pre post dcur hsplit _ _ _ _ _ _ hok
      have hst : st = st' := Except.ok.inj hok
      refine ⟨fun _ => ⟨pre, post, by rw [← hst]; exact hsplit⟩, ?_⟩
      intro _ e he
      exact absurd he (List.not_mem_nil e)
  | cons e es ih =>
      intro st st' pre post dcur hsplit hepre hedcur hepost hS hpreS hpostS hok
      obtain ⟨st1, h1, h2⟩ := foldlM_cons_ok processDevice e es st st' hok
      have hemul_all : ∀ x ∈ st.dev_list, x.emulated = false := by
        rw [hsplit]
        intro x hx
        rcases List.mem_append.mp hx with hx1 | hx2
        · exact hepre x hx1
        · rcases List.mem_cons.mp hx2 with hx3 | hx4
          · rw [hx3]; exact hedcur
          · exact hepost x hx4
      rcases processDevice_ok st st1 e hemul_all h1 with ⟨hany, hupd⟩ | ⟨hany, happ⟩
      · by_cases heS : e.calSerial = S
        · -- the entry carries S and updates the tracked device in place
          have hupd2 : st1.dev_list =
              pre ++
              ({ dcur with configuration := e, connected := true } : Device) ::
              post := by
            rw [hupd, hsplit,
              updFirstSer_skip pre _ e (fun x hx => by
                rw [heS]; exact hpreS x hx),
              updFirstSer_cons_match dcur post e (by rw [hS, heS])]
          have hIH := ih st1 st' pre post
            ({ dcur with configuration := e, connected := true } : Device)
            hupd2 hepre hedcur hepost heS hpreS hpostS h2
          constructor
          · intro hnot
            exact absurd (show S ∈ (e :: es).map (fun e => e.calSerial) by
              rw [List.map_cons]
              exact List.mem_cons.mpr (Or.inl heS.symm)) hnot
          · intro hnodup e' he' he'S
            rcases List.mem_cons.mp he' with he1 | he2
            · have hSnotin : S ∉ es.map (fun e => e.calSerial) := by
                rw [List.map_cons] at hnodup
                have hni := (List.nodup_cons.mp hnodup).1
                rw [heS] at hni
                exact hni
              obtain ⟨p2, q2, hq⟩ := hIH.1 hSnotin
              exact ⟨p2, q2, by rw [hq, he1]⟩
            · exfalso
              rw [List.map_cons] at hnodup
              have hni := (List.nodup_cons.mp hnodup).1
              rw [heS] at hni
              exact hni (List.mem_map.mpr ⟨e', he2, he'S⟩)
        · -- the entry carries another serial and leaves the device alone
          have hneq : dcur.configuration.calSerial ≠ e.calSerial := by
            rw [hS]; exact fun h => heS h.symm
          obtain ⟨pre2, post2, hu, hpre2S, hpost2S, hpre2e, hpost2e⟩ :=
            updFirstSer_middle pre post dcur e S hneq hpreS hpostS heS
              hepre hepost
          have hsplit1 : st1.dev_list = pre2 ++ dcur :: post2 := by
            rw [hupd, hsplit, hu]
          have hIH := ih st1 st' pre2 post2 dcur hsplit1 hpre2e hedcur
            hpost2e hS hpre2S hpost2S h2
          constructor
          · intro hnot
            refine hIH.1 (fun hmem => hnot ?_)
            rw [List.map_cons]
            exact List.mem_cons_of_mem _ hmem
          · intro hnodup e' he' he'S
            rcases List.mem_cons.mp he' with he1 | he2
            · exact absurd (by rw [← he1]; exact he'S) heS
            · refine hIH.2 ?_ e' he2 he'S
              rw [List.map_cons] at hnodup
              exact (List.nodup_cons.mp hnodup).2
      · -- no match anywhere: a fresh device is appended at the end
        have heS : e.calSerial ≠ S := by
          intro h
          have hdc : dcur.configuration.calSerial = e.calSerial := by
            rw [hS, h]
          have hmem : st.dev_list.any
              (fun d => d.configuration.calSerial = e.calSerial) = true := by
            rw [hsplit]
            apply List.any_eq_true.mpr
            exact ⟨dcur, by simp, by simp [hdc]⟩
          rw [hany] at hmem
          exact absurd hmem (by simp)
        have hsplit1 : st1.dev_list = pre ++ dcur ::
            (post ++ [⟨st.dev_list.length, e.hardwareVersion, false, true,
              e, none⟩]) := by
          rw [happ, hsplit]
          simp
        have hIH := ih st1 st' pre
          (post ++ [⟨st.dev_list.length, e.hardwareVersion, false, true,
            e, none⟩]) dcur hsplit1 hepre hedcur
          (by
            intro x hx
            rcases List.mem_append.mp hx with hx1 | hx2
            · exact hepost x hx1
            · rw [List.mem_singleton.mp hx2])
          hS hpreS
          (by
            intro x hx
            rcases List.mem_append.mp hx with hx1 | hx2
            · exact hpostS x hx1
            · rw [List.mem_singleton.mp hx2]; exact heS)
          h2
        constructor
        · intro hnot
          refine hIH.1 (fun hmem => hnot ?_)
          rw [List.map_cons]
          exact List.mem_cons_of_mem _ hmem
        · intro hnodup e' he' he'S
          rcases List.mem_cons.mp he' with he1 | he2
          · exact absurd (by rw [← he1]; exact he'S) heS
          · refine hIH.2 ?_ e' he2 he'S
            rw [List.map_cons] at hnodup
            exact (List.nodup_cons.mp hnodup).2

/-- C3.  For a tracked non-emulated device with a serial `S` unique in
the registry (given as the split `pre ++ d :: post` with no other
occurrence of `S`), a completed `refresh()` behaves as claimed: when the
driver report omits `S` the device stays in the registry with
`connected = false` and its id, configuration and stored lightfield
reference untouched; when the report contains `S` (reports carry
pairwise distinct serials) the device stays in place with exactly its
configuration replaced by the report entry and `connected = true`,
preserving its id and lightfield.  The registry is assumed free of
emulated devices: any emulated device whose configuration lacks the
top-level `serial` key — both shipped dummy configurations lack it —
makes the serial lookup inside `refresh()` raise a `KeyError`, so such a
refresh never returns a state at all. -/
theorem C3_refresh_reconciliation (report : List DevConfig) (st st' : DMState)
    (d : Device) (pre post : List Device)
    (hsplit : st.dev_list = pre ++ d :: post)
    (hemul : ∀ x ∈ st.dev_list, x.emulated = false)
    (hpre : ∀ x ∈ pre, x.configuration.calSerial ≠ d.configuration.calSerial)
    (hpost : ∀ x ∈ post, x.configuration.calSerial ≠ d.configuration.calSerial)
    (hrun : refresh true (some report) st = .ok st') :
    (d.configuration.calSerial ∉ report.map (fun e => e.calSerial) →
      ∃ pre2 post2, st'.dev_list = pre2 ++
        ({ d with connected := false } : Device) :: post2) ∧
    ((report.map (fun e => e.calSerial)).Nodup →
      ∀ e ∈ report, e.calSerial = d.configuration.calSerial →
      ∃ pre2 post2, st'.dev_list = pre2 ++
        ({ d with connected := true, configuration := e } : Device) ::
        post2) := by
  have hd : d.emulated = false :=
    hemul d (by rw [hsplit]; exact List.mem_append_right _ (List.mem_cons_self _ _))
  have hepre : ∀ x ∈ pre, x.emulated = false := fun x hx =>
    hemul x (by rw [hsplit]; exact List.mem_append_left _ hx)
  have hepost : ∀ x ∈ post, x.emulated = false := fun x hx =>
    hemul x
      (by rw [hsplit]; exact List.mem_append_right _ (List.mem_cons_of_mem _ hx))
  simp only [refresh, if_true] at hrun
  by_cases hemp : report.isEmpty = true
  · rw [if_pos hemp] at hrun
    have hst : ({ st with dev_list := markDisconnected st.dev_list } : DMState)
        = st' := Except.ok.inj hrun
    have hlist : st'.dev_list = markDisconnected pre ++
        ({ d with connected := false } : Device) :: markDisconnected post := by
      rw [← hst]
      show markDisconnected st.dev_list = _
      rw [hsplit]
      exact markDisconnected_split pre post d hd
    constructor
    · intro _
      exact ⟨_, _, hlist⟩
    · intro _ e he _
      cases report with
      | nil => exact absurd he (List.not_mem_nil e)
      | cons a as => exact absurd hemp (by simp [List.isEmpty])
  · rw [if_neg hemp] at hrun
    have hmpre_e : ∀ x ∈ markDisconnected pre, x.emulated = false := by
      intro x hx
      obtain ⟨y, hy, _, he⟩ := mem_markDisconnected x pre hx
      rw [he]; exact hepre y hy
    have hmpost_e : ∀ x ∈ markDisconnected post, x.emulated = false := by
      intro x hx
      obtain ⟨y, hy, _, he⟩ := mem_markDisconnected x post hx
      rw [he]; exact hepost y hy
    have hmpre_s : ∀ x ∈ markDisconnected pre,
        x.configuration.calSerial ≠ d.configuration.calSerial := by
      intro x hx
      obtain ⟨y, hy, hc, _⟩ := mem_markDisconnected x pre hx
      rw [hc]; exact hpre y hy
    have hmpost_s : ∀ x ∈ markDisconnected post,
        x.configuration.calSerial ≠ d.configuration.calSerial := by
      intro x hx
      obtain ⟨y, hy, hc, _⟩ := mem_markDisconnected x post hx
      rw [hc]; exact hpost y hy
    have hsplit1 :
        ({ st with dev_list := markDisconnected st.dev_list } : DMState).dev_list
          = markDisconnected pre ++
            ({ d with connected := false } : Device) ::
            markDisconnected post := by
      show markDisconnected st.dev_list = _
      rw [hsplit]
      exact markDisconnected_split pre post d hd
    have hinv := refresh_fold_inv d.configuration.calSerial report
      { st with dev_list := markDisconnected st.dev_list } st'
      (markDisconnected pre) (markDisconnected post)
      ({ d with connected := false } : Device)
      hsplit1 hmpre_e hd hmpost_e rfl hmpre_s hmpost_s hrun
    exact ⟨hinv.1, hinv.2⟩

/-- C3, witness: a registry tracking one connected device with serial
"SER-1" and a displayed lightfield, refreshed with a report carrying the
same serial and a new configuration: the device is reconnected in place
with the new configuration, id 0 and lightfield 42 preserved. -/
theorem C3_refresh_witness :
    refresh true (some [c3cfg1]) c3st =
      .ok ⟨1, [⟨0, "standard", false, true, c3cfg1, some 42⟩], none⟩ ∧
    ∃ pre2 post2,
      (⟨1, [⟨0, "standard", false, true, c3cfg1, some 42⟩], none⟩ :
          DMState).dev_list =
        pre2 ++
        ({ c3dev with connected := true, configuration := c3cfg1 } : Device) ::
        post2 := by
  have hrun : refresh true (some [c3cfg1]) c3st =
      .ok ⟨1, [⟨0, "standard", false, true, c3cfg1, some 42⟩], none⟩ := rfl
  refine ⟨hrun, ?_⟩
  exact (C3_refresh_reconciliation [c3cfg1] c3st
    ⟨1, [⟨0, "standard", false, true, c3cfg1, some 42⟩], none⟩ c3dev [] []
    rfl
    (by intro x hx; rw [List.mem_singleton.mp hx]; rfl)
    (by intro x hx; exact absurd hx (List.not_mem_nil x))
    (by intro x hx; exact absurd hx (List.not_mem_nil x))
    hrun).2 (by simp) c3cfg1 (List.mem_singleton.mpr rfl) rfl
